import Mathlib

/-!
Verification development for the LAX flights dashboard
(`src/st_flights_dashboard.py`).

The file shallowly embeds the two core components of the program:

* the dataset provider `load_data` (cache-freshness decision, API call with
  fallback to the latest cache, CSV persistence, timestamp normalization), and
* the aggregator functions `filter_data`, `calculate_data_by_hour`,
  `group_data_by_terminal`, `group_data_by_airline`.

Conventions of the embedding:

* A pandas `Timestamp` is a record of calendar fields; `hour`, `minute` and
  `second` are `Fin`s because pandas guarantees those ranges.  A possibly-NaT
  datetime cell is an `Option Timestamp`.
* A DataFrame is a `List` of row records; nullable columns (`dep_terminal`,
  `airline_iata`, `flight_iata`) are `Option String` (NaN = `none`).
* Python truthiness of the `Optional[int]` / `Optional[str]` filter arguments
  is modelled exactly: `None` and `0` (resp. `""`) are falsy.
* `np.histogram(xs, bins=60, range=(0, 60))` over integer minutes `0..59`
  counts, in bucket `m`, the values equal to `m` (each bucket is the
  half-open interval `[m, m+1)`, and only the last one also contains `60`,
  which no pandas minute attains); NaN (from NaT rows) falls in no bucket.
* `pandas.groupby` drops rows whose group key is NaN, and `nunique` counts
  distinct non-NaN values; both behaviours are modelled explicitly.  The
  order of group keys (pandas sorts them) is irrelevant to every property
  proved here, so groups are listed in first-occurrence order.
-/

/-- A pandas timestamp, at second resolution.  `hour < 24`, `minute < 60`
and `second < 60` are invariants of the pandas `Timestamp` type. -/
structure Timestamp where
  year : Nat
  month : Nat
  day : Nat
  hour : Fin 24
  minute : Fin 60
  second : Fin 60
  deriving DecidableEq

/-- A row of the in-memory dataset after `load_data`'s normalization:
`dep_time` and `timestamp_api_call` have been passed through
`pd.to_datetime` (`none` = NaT), the other columns are raw strings with
`none` = NaN. -/
structure FlightRow where
  dep_time : Option Timestamp
  dep_terminal : Option String
  airline_iata : Option String
  flight_iata : Option String
  timestamp_api_call : Option Timestamp
  deriving DecidableEq

/-- Python truthiness of an `Optional[int]`: `None` and `0` are falsy. -/
def truthyNat : Option Nat → Bool
  | none => false
  | some n => n != 0

/-- Python truthiness of an `Optional[str]`: `None` and `""` are falsy. -/
def truthyStr : Option String → Bool
  | none => false
  | some s => s != ""

/-- `data["dep_time"].dt.hour == departure_hour` for one row: NaT rows
compare unequal (NaN == h is False in pandas). -/
def hourMatches (r : FlightRow) (h : Nat) : Bool :=
  match r.dep_time with
  | some t => t.hour.val == h
  | none => false

/-- `data["dep_time"].dt.minute == m` for one row; NaT rows match nothing. -/
def minuteMatches (r : FlightRow) (m : Nat) : Bool :=
  match r.dep_time with
  | some t => t.minute.val == m
  | none => false

/-- `filter_data(data, departure_hour, terminal_selected)` from the source:
`if departure_hour:` keeps rows whose departure hour equals it, and
`if terminal_selected:` keeps rows whose terminal equals it.  The guards are
Python truthiness tests, so `departure_hour = 0` (and `None`) applies no
hour restriction. -/
def filter_data (data : List FlightRow) (departure_hour : Option Nat)
    (terminal_selected : Option String) : List FlightRow :=
  let d1 := if truthyNat departure_hour then
      data.filter (fun r => hourMatches r (departure_hour.getD 0))
    else data
  if truthyStr terminal_selected then
    d1.filter (fun r => r.dep_terminal == terminal_selected)
  else d1

/-- `calculate_data_by_hour`: filter, then
`np.histogram(minutes, bins=60, range=(0,60))`, tabulated as the 60 rows
`(minute, departures)` of the returned DataFrame. -/
def calculate_data_by_hour (data : List FlightRow) (departure_hour : Option Nat)
    (terminal_selected : Option String) : List (Nat × Nat) :=
  let fd := filter_data data departure_hour terminal_selected
  (List.range 60).map (fun m => (m, (fd.filter (fun r => minuteMatches r m)).length))

/-- `nunique` of the `flight_iata` column of a list of rows: the number of
distinct non-NaN flight identifiers. -/
def nuniqueFlights (rows : List FlightRow) : Nat :=
  (rows.filterMap (fun r => r.flight_iata)).dedup.length

/-- The distinct non-NaN `dep_terminal` values of a list of rows (the group
keys of `groupby(["dep_terminal"])`, which drops NaN keys). -/
def terminalKeys (rows : List FlightRow) : List String :=
  (rows.filterMap (fun r => r.dep_terminal)).dedup

/-- `group_data_by_terminal(data, departure_hour)`: filter by hour only,
group by `dep_terminal` (NaN keys dropped), count distinct `flight_iata`
per group.  A result row is a `(dep_terminal, count_flights)` pair. -/
def group_data_by_terminal (data : List FlightRow) (departure_hour : Option Nat) :
    List (String × Nat) :=
  let fd := filter_data data departure_hour none
  (terminalKeys fd).map
    (fun t => (t, nuniqueFlights (fd.filter (fun r => r.dep_terminal == some t))))

/-- A row of `group_data_by_airline`'s result: the `(dep_terminal,
airline_iata)` group key, the distinct-flight count and the constant
airport label (a cell of each row, hence absent when there are no rows). -/
structure AirlineRow where
  dep_terminal : String
  airline_iata : String
  count_flights : Nat
  airport : String
  deriving DecidableEq

/-- The distinct `(dep_terminal, airline_iata)` group keys; rows in which
either key is NaN are dropped by pandas. -/
def airlineKeys (rows : List FlightRow) : List (String × String) :=
  (rows.filterMap (fun r =>
    match r.dep_terminal, r.airline_iata with
    | some t, some a => some (t, a)
    | _, _ => none)).dedup

/-- `group_data_by_airline(data, departure_hour)`: filter by hour only,
group by `(dep_terminal, airline_iata)` (rows with a NaN key dropped),
count distinct `flight_iata` per group, attach `airport = "LAX"` to every
row. -/
def group_data_by_airline (data : List FlightRow) (departure_hour : Option Nat) :
    List AirlineRow :=
  let fd := filter_data data departure_hour none
  (airlineKeys fd).map (fun k =>
    ⟨k.1, k.2,
      nuniqueFlights (fd.filter
        (fun r => r.dep_terminal == some k.1 && r.airline_iata == some k.2)),
      "LAX"⟩)

/-! ### The timestamp string codec

`load_data` serializes the fetch timestamp through `str()` when writing the
cache CSV and parses datetime columns back with `pd.to_datetime`.  The codec
is modelled at second resolution with the fixed-width form
`YYYY-MM-DD HH:MM:SS`. -/

/-- The zero-padded `k`-digit decimal rendering of `n` (big-endian). -/
def padDigits : Nat → Nat → List Char
  | 0, _ => []
  | k + 1, n => padDigits k (n / 10) ++ [Nat.digitChar (n % 10)]

/-- Numeric value of a decimal digit character. -/
def charVal (c : Char) : Nat := c.toNat - 48

/-- Decimal number denoted by a digit string. -/
def readNat (l : List Char) : Nat := l.foldl (fun a c => a * 10 + charVal c) 0

/-- `str(timestamp)`: the canonical `YYYY-MM-DD HH:MM:SS` rendering. -/
def formatTs (t : Timestamp) : String :=
  String.mk (padDigits 4 t.year ++ '-' :: (padDigits 2 t.month ++ '-' ::
    (padDigits 2 t.day ++ ' ' :: (padDigits 2 t.hour.val ++ ':' ::
      (padDigits 2 t.minute.val ++ ':' :: padDigits 2 t.second.val)))))

/-- Consume `k` characters as a number followed by the separator `c`;
`none` if the input is too short or the separator does not match. -/
def splitAtSep (k : Nat) (c : Char) (l : List Char) : Option (Nat × List Char) :=
  if (l.take k).length = k then
    match l.drop k with
    | c' :: rest => if c' = c then some (readNat (l.take k), rest) else none
    | [] => none
  else none

/-- `pd.to_datetime` on one cell: parse the fixed-width
`YYYY-MM-DD HH:MM:SS` form, `none` (NaT) when the shape or the field
ranges are wrong. -/
def parseTs (s : String) : Option Timestamp := do
  let (y, l1) ← splitAtSep 4 '-' s.data
  let (mo, l2) ← splitAtSep 2 '-' l1
  let (da, l3) ← splitAtSep 2 ' ' l2
  let (h, l4) ← splitAtSep 2 ':' l3
  let (mi, l5) ← splitAtSep 2 ':' l4
  if hok : l5.length = 2 ∧ readNat l5 < 60 ∧ h < 24 ∧ mi < 60 then
    some ⟨y, mo, da, ⟨h, hok.2.2.1⟩, ⟨mi, hok.2.2.2⟩, ⟨readNat l5, hok.2.1⟩⟩
  else none

/-! ### The dataset provider `load_data` -/

/-- A record of the remote API's `response` array (equally: the string
cells of one cache-CSV data row before type normalization); `none` is a
JSON null / empty CSV cell (NaN). -/
structure RawRow where
  dep_time : Option String
  dep_terminal : Option String
  airline_iata : Option String
  flight_iata : Option String
  deriving DecidableEq

/-- `pandas.to_csv` renders NaN as an empty cell. -/
def encodeCell : Option String → String
  | none => ""
  | some s => s

/-- `pandas.read_csv` reads an empty cell as NaN. -/
def decodeCell (s : String) : Option String :=
  if s = "" then none else some s

/-- One CSV data row: the four flight columns plus the appended
`timestamp_api_call` column. -/
def rowToCsv (r : RawRow) (fetchCell : String) : List String :=
  [encodeCell r.dep_time, encodeCell r.dep_terminal, encodeCell r.airline_iata,
   encodeCell r.flight_iata, fetchCell]

/-- Read one CSV data row back into a raw record and the raw
`timestamp_api_call` cell. -/
def csvToRaw (cells : List String) : RawRow × Option String :=
  match cells with
  | [a, b, c, d, e] => (⟨decodeCell a, decodeCell b, decodeCell c, decodeCell d⟩, decodeCell e)
  | _ => (⟨none, none, none, none⟩, none)

/-- The two `pd.to_datetime` normalizations at the end of `load_data`,
applied to a raw record and its fetch-time value. -/
def mkFlightRow (r : RawRow) (fetch : Option Timestamp) : FlightRow :=
  ⟨r.dep_time.bind (fun s => parseTs s), r.dep_terminal, r.airline_iata,
   r.flight_iata, fetch⟩

/-- `pd.read_csv` of a cache file followed by the two `pd.to_datetime`
normalizations. -/
def readCacheCsv (tbl : List (List String)) : List FlightRow :=
  tbl.map (fun cells =>
    mkFlightRow (csvToRaw cells).1 ((csvToRaw cells).2.bind (fun s => parseTs s)))

/-- `pd.DataFrame(response)` with the `timestamp_api_call` column set to
the call-issue time, after normalization. -/
def freshRows (rows : List RawRow) (now : Timestamp) : List FlightRow :=
  rows.map (fun r => mkFlightRow r (some now))

/-- `to_csv` of the freshly fetched DataFrame (written before the
`to_datetime` normalization, so `dep_time` is still the raw API string and
the fetch time is serialized by `str()`). -/
def freshCsv (rows : List RawRow) (now : Timestamp) : List (List String) :=
  rows.map (fun r => rowToCsv r (formatTs now))

/-- The three outcomes of `requests.get(...).json().get("response")`: the
request raises, `.json()` raises, or a parsed body whose `response` key is
absent/null (`none`) or an array of records. -/
inductive ApiOutcome where
  | networkError
  | malformedJson
  | ok (response : Option (List RawRow))
  deriving DecidableEq

/-- The exceptions `load_data` can let escape: a `requests` exception, a
JSON decoding exception, or the `ValueError` from `pd.read_csv(None)` when
no cache file exists on the fallback path. -/
inductive LoadError where
  | requestException
  | jsonException
  | readCsvNone
  deriving DecidableEq

/-- A cache file: its filename-embedded date (`YYYYMMDD`, so lexicographic
filename order is numeric date order) and its data rows. -/
abbrev CacheFile := Nat × List (List String)

/-- `max(glob.glob(...))` over the airport's cache files: the file with
the greatest embedded date, `none` when no file matches (the `except`
branch setting `latest_csv_name = None`). -/
def latestCache : List CacheFile → Option CacheFile
  | [] => none
  | f :: fs =>
    match latestCache fs with
    | none => some f
    | some g => if f.1 < g.1 then some g else some f

/-- The world one `load_data` call runs in: today's date (`dt.date.today()`,
`YYYYMMDD`-encoded), the clock value captured as `timestamp_api_call`, the
cache directory contents, and what the remote API would yield. -/
structure Env where
  today : Nat
  now : Timestamp
  files : List CacheFile
  api : ApiOutcome

/-- What one `load_data` call produces: the returned DataFrame or the
escaping exception, whether the API request was issued, and the cache file
written, if any. -/
structure LoadResult where
  outcome : Except LoadError (List FlightRow)
  apiCalled : Bool
  wroteFile : Option CacheFile

/-- `load_data` from the source.  Branches: cache dated today is read
directly with no API call and no write; otherwise the API is called — a
request or JSON exception propagates, a null `response` falls back to
reading `latest_cache` (raising `ValueError` from `pd.read_csv(None)` when
there is none), and a non-null `response` is framed, stamped with the
call-issue time, written as today's cache file and returned. -/
def load_data (env : Env) : LoadResult :=
  match latestCache env.files with
  | some (d, tbl) =>
    if d = env.today then
      ⟨Except.ok (readCacheCsv tbl), false, none⟩
    else
      match env.api with
      | ApiOutcome.networkError => ⟨Except.error LoadError.requestException, true, none⟩
      | ApiOutcome.malformedJson => ⟨Except.error LoadError.jsonException, true, none⟩
      | ApiOutcome.ok none => ⟨Except.ok (readCacheCsv tbl), true, none⟩
      | ApiOutcome.ok (some rows) =>
          ⟨Except.ok (freshRows rows env.now), true, some (env.today, freshCsv rows env.now)⟩
  | none =>
      match env.api with
      | ApiOutcome.networkError => ⟨Except.error LoadError.requestException, true, none⟩
      | ApiOutcome.malformedJson => ⟨Except.error LoadError.jsonException, true, none⟩
      | ApiOutcome.ok none => ⟨Except.error LoadError.readCsvNone, true, none⟩
      | ApiOutcome.ok (some rows) =>
          ⟨Except.ok (freshRows rows env.now), true, some (env.today, freshCsv rows env.now)⟩

/-! ### Concrete datasets and environments used to instantiate the theorems -/

/-- A timestamp on 2025-10-12 at the given hour and minute. -/
def tsAt (h : Fin 24) (m : Fin 60) : Timestamp := ⟨2025, 10, 12, h, m, 0⟩

/-- A dataset row departing at the given hour and minute. -/
def rowAt (h : Fin 24) (m : Fin 60) (term a fl : Option String) : FlightRow :=
  ⟨some (tsAt h m), term, a, fl, some (tsAt 6 0)⟩

/-- Two records, one departing at hour 0 and one at hour 5. -/
def hourZeroData : List FlightRow :=
  [rowAt 0 15 (some "A") (some "AA") (some "AA1"),
   rowAt 5 30 (some "B") (some "BB") (some "BB2")]

/-- Scenario A of the spec: three records at terminal "B", one at hour 10
and two at hour 11, with pairwise distinct flight identifiers. -/
def scenarioA : List FlightRow :=
  [rowAt 10 5 (some "B") (some "AA") (some "AA10"),
   rowAt 11 20 (some "B") (some "AA") (some "AA11"),
   rowAt 11 40 (some "B") (some "UA") (some "UA12")]

/-- One record at hour 5, so that an hour-7 filter empties the dataset. -/
def singleRowData : List FlightRow :=
  [rowAt 5 0 (some "A") (some "AA") (some "AA1")]

/-- One flight identifier occurring under two different terminals, with no
null fields anywhere. -/
def crossTerminalData : List FlightRow :=
  [rowAt 9 0 (some "A") (some "AA") (some "AA1"),
   rowAt 9 10 (some "B") (some "AA") (some "AA1")]

/-- Rows of a cache file written on 2025-10-11 (its stored
`timestamp_api_call` cell is `2025-10-11 07:00:00`). -/
def staleTbl : List (List String) :=
  [["2025-10-11 08:30:00", "B", "AA", "AA100", "2025-10-11 07:00:00"]]

/-- A run on 2025-10-12 with yesterday's cache on disk and a network error
from the API. -/
def netErrEnv : Env := ⟨20251012, tsAt 9 0, [(20251011, staleTbl)], ApiOutcome.networkError⟩

/-- A run on 2025-10-12 with yesterday's cache on disk and an API body
whose `response` key is null. -/
def nullRespEnv : Env := ⟨20251012, tsAt 9 0, [(20251011, staleTbl)], ApiOutcome.ok none⟩

/-- A run on 2025-10-12 whose cache file is dated 2025-10-12 (today). -/
def freshCacheEnv : Env := ⟨20251012, tsAt 9 0, [(20251012, staleTbl)], ApiOutcome.networkError⟩

/-- A run with no cache files and an API body whose `response` is null. -/
def noCacheEnv : Env := ⟨20251012, tsAt 9 0, [], ApiOutcome.ok none⟩

/-- One raw API record with a null `airline_iata`. -/
def c9rows : List RawRow := [⟨some "2025-10-12 08:30:00", some "B", none, some "AA100"⟩]

/-- A fetch time for the round-trip instance. -/
def c9now : Timestamp := tsAt 9 5

/-! ### Codec lemmas -/

theorem charVal_digitChar (m : Nat) (h : m < 10) : charVal (Nat.digitChar m) = m := by
  interval_cases m <;> rfl

theorem padDigits_length (k n : Nat) : (padDigits k n).length = k := by
  induction k generalizing n with
  | zero => rfl
  | succ k ih => simp [padDigits, ih]

theorem readNat_snoc (l : List Char) (c : Char) :
    readNat (l ++ [c]) = readNat l * 10 + charVal c := by
  simp [readNat, List.foldl_append]

theorem readNat_padDigits (k n : Nat) (h : n < 10 ^ k) : readNat (padDigits k n) = n := by
  induction k generalizing n with
  | zero =>
    simp only [pow_zero, Nat.lt_one_iff] at h
    subst h; rfl
  | succ k ih =>
    have hdiv : n / 10 < 10 ^ k := by
      rw [Nat.div_lt_iff_lt_mul (by norm_num)]
      calc n < 10 ^ (k + 1) := h
        _ = 10 ^ k * 10 := by ring
    rw [padDigits, readNat_snoc, ih _ hdiv, charVal_digitChar _ (Nat.mod_lt _ (by norm_num))]
    omega

theorem splitAtSep_pad (k : Nat) (c : Char) (n : Nat) (rest : List Char) :
    splitAtSep k c (padDigits k n ++ c :: rest) = some (readNat (padDigits k n), rest) := by
  have hlen := padDigits_length k n
  unfold splitAtSep
  rw [List.take_left' hlen, List.drop_left' hlen]
  simp [hlen]

/-- The timestamp codec round-trips: parsing the serialized form of any
timestamp whose year fits the four-digit field (and month/day the
two-digit fields) recovers the timestamp. -/
theorem parseTs_formatTs (t : Timestamp) (hy : t.year < 10000)
    (hmo : t.month < 100) (hd : t.day < 100) : parseTs (formatTs t) = some t := by
  obtain ⟨y, mo, da, ⟨hh, hhlt⟩, ⟨mi, milt⟩, ⟨se, selt⟩⟩ := t
  have hy' : y < 10 ^ 4 := lt_of_lt_of_le hy (by norm_num)
  have hmo' : mo < 10 ^ 2 := lt_of_lt_of_le hmo (by norm_num)
  have hd' : da < 10 ^ 2 := lt_of_lt_of_le hd (by norm_num)
  have hh2 : hh < 10 ^ 2 := lt_of_lt_of_le hhlt (by norm_num)
  have hmi2 : mi < 10 ^ 2 := lt_of_lt_of_le milt (by norm_num)
  have hse2 : se < 10 ^ 2 := lt_of_lt_of_le selt (by norm_num)
  have hdata : (formatTs ⟨y, mo, da, ⟨hh, hhlt⟩, ⟨mi, milt⟩, ⟨se, selt⟩⟩).data =
      padDigits 4 y ++ '-' :: (padDigits 2 mo ++ '-' :: (padDigits 2 da ++ ' ' ::
        (padDigits 2 hh ++ ':' :: (padDigits 2 mi ++ ':' :: padDigits 2 se)))) := rfl
  rw [parseTs]
  rw [hdata, splitAtSep_pad]
  simp only [Option.bind_eq_bind, Option.some_bind]
  rw [splitAtSep_pad]
  simp only [Option.some_bind]
  rw [splitAtSep_pad]
  simp only [Option.some_bind]
  rw [splitAtSep_pad]
  simp only [Option.some_bind]
  rw [splitAtSep_pad]
  simp only [Option.some_bind]
  rw [readNat_padDigits 4 y hy', readNat_padDigits 2 mo hmo', readNat_padDigits 2 da hd',
    readNat_padDigits 2 hh hh2, readNat_padDigits 2 mi hmi2]
  split
  case isTrue hok =>
    simp [readNat_padDigits 2 se hse2]
  case isFalse hok =>
    exact absurd ⟨padDigits_length 2 se,
      by rw [readNat_padDigits 2 se hse2]; exact selt, hhlt, milt⟩ hok

/-! ### Aggregator lemmas -/

theorem filter_cons_length {α : Type} (p : α → Bool) (a : α) (l : List α) :
    (List.filter p (a :: l)).length =
      (if p a then 1 else 0) + (List.filter p l).length := by
  by_cases h : p a <;> simp [List.filter_cons, h]
  omega

theorem list_sum_map_add {α : Type} (L : List α) (f g : α → Nat) :
    (L.map (fun x => f x + g x)).sum = (L.map f).sum + (L.map g).sum := by
  induction L with
  | nil => simp
  | cons x L ih => simp [ih]; omega

theorem list_range_map_sum (n : Nat) (f : Nat → Nat) :
    ((List.range n).map f).sum = ∑ m in Finset.range n, f m := by
  induction n with
  | zero => simp
  | succ n ih => rw [List.range_succ, Finset.sum_range_succ]; simp [ih]

theorem minute_indicator_sum (r : FlightRow) :
    ((List.range 60).map (fun m => if minuteMatches r m then 1 else 0)).sum =
      if r.dep_time.isSome then 1 else 0 := by
  cases hdt : r.dep_time with
  | none => simp [minuteMatches, hdt]
  | some t =>
    rw [list_range_map_sum]
    simp only [minuteMatches, hdt, beq_iff_eq, Option.isSome_some, if_true]
    rw [Finset.sum_ite_eq]
    simp [t.minute.isLt]

/-- Each record with a non-NaT departure time lands in exactly one of the 60
minute buckets, so the bucket counts sum to the number of such records. -/
theorem minute_bucket_sum (l : List FlightRow) :
    ((List.range 60).map (fun m => (l.filter (fun r => minuteMatches r m)).length)).sum =
      (l.filter (fun r => r.dep_time.isSome)).length := by
  induction l with
  | nil => simp
  | cons r l ih =>
    have hmap : (List.range 60).map
          (fun m => ((r :: l).filter (fun x => minuteMatches x m)).length) =
        (List.range 60).map (fun m => (if minuteMatches r m then 1 else 0) +
          (l.filter (fun x => minuteMatches x m)).length) :=
      List.map_congr_left (fun m _ => filter_cons_length _ r l)
    rw [hmap, list_sum_map_add, minute_indicator_sum, ih, filter_cons_length]

/-! ### Claim theorems: aggregator -/

/-- Claim C3: for every dataset and every hour/terminal filter choice, the
hourly histogram has exactly 60 buckets for minutes 0-59, bucket `m` counts
the raw record occurrences at minute `m` in the filtered subset, and the
bucket counts sum to the number of filtered records with a valid (non-NaT)
departure timestamp. -/
theorem histogram_buckets_and_sum (data : List FlightRow) (departure_hour : Option Nat)
    (terminal_selected : Option String) :
    (calculate_data_by_hour data departure_hour terminal_selected).length = 60 ∧
    (∀ m : Fin 60, (calculate_data_by_hour data departure_hour terminal_selected)[m.val]? =
      some (m.val, ((filter_data data departure_hour terminal_selected).filter
        (fun r => minuteMatches r m.val)).length)) ∧
    ((calculate_data_by_hour data departure_hour terminal_selected).map
        (fun p => p.2)).sum =
      ((filter_data data departure_hour terminal_selected).filter
        (fun r => r.dep_time.isSome)).length := by
  refine ⟨by simp [calculate_data_by_hour], fun m => ?_, ?_⟩
  · simp [calculate_data_by_hour, List.getElem?_map, List.getElem?_range, m.isLt]
  · rw [calculate_data_by_hour, List.map_map]
    exact minute_bucket_sum _

/-- Claim C2 (code bug): `filter_data` with `departure_hour = 0` applies no
hour restriction at all — Python truthiness treats `0` like `None` — so the
hour-5 record survives an hour-0 filter; for the nonzero hours the filter
behaves as specified. -/
theorem filter_data_hour_zero_unfiltered :
    filter_data hourZeroData (some 0) none = hourZeroData ∧
    (hourZeroData.filter (fun r => hourMatches r 0)).length = 1 ∧
    hourZeroData.length = 2 ∧
    filter_data hourZeroData (some 5) none = [hourZeroData.get ⟨1, by decide⟩] := by
  refine ⟨rfl, by decide, by decide, by decide⟩

/-- Claim C4: `group_data_by_terminal` filters by hour only (no terminal
restriction is ever passed), and its rows are exactly the non-NaN terminals
of the surviving records, each with the count of distinct flight
identifiers at that terminal (duplicate flight-identifier rows count once);
on Scenario A (three terminal-"B" records, exactly one at hour 10) the
hour-10 summary is the single row `("B", 1)`. -/
theorem terminal_summary_groups_and_scenario :
    (∀ (data : List FlightRow) (departure_hour : Option Nat) (t : String) (c : Nat),
      (t, c) ∈ group_data_by_terminal data departure_hour ↔
        ((∃ r ∈ filter_data data departure_hour none, r.dep_terminal = some t) ∧
          c = nuniqueFlights ((filter_data data departure_hour none).filter
            (fun r => r.dep_terminal == some t)))) ∧
    group_data_by_terminal scenarioA (some 10) = [("B", 1)] := by
  constructor
  · intro data departure_hour t c
    simp only [group_data_by_terminal, terminalKeys, List.mem_map, List.mem_dedup,
      List.mem_filterMap, Prod.mk.injEq]
    constructor
    · rintro ⟨t', ⟨r, hr, hrt⟩, rfl, rfl⟩
      exact ⟨⟨r, hr, hrt⟩, rfl⟩
    · rintro ⟨⟨r, hr, hrt⟩, rfl⟩
      exact ⟨t, ⟨r, hr, hrt⟩, rfl, rfl⟩
  · decide

/-- Claim C5: when the filtered subset is empty, the histogram is 60
zero-filled buckets and both group-by summaries are zero-row results (for
`group_data_by_airline` the constant airport label occurs in no row, there
being none) — never an error and never null. -/
theorem empty_filter_aggregates (data : List FlightRow) (departure_hour : Option Nat)
    (terminal_selected : Option String)
    (hft : filter_data data departure_hour terminal_selected = [])
    (hfh : filter_data data departure_hour none = []) :
    calculate_data_by_hour data departure_hour terminal_selected =
      (List.range 60).map (fun m => (m, 0)) ∧
    group_data_by_terminal data departure_hour = [] ∧
    group_data_by_airline data departure_hour = [] := by
  refine ⟨?_, ?_, ?_⟩
  · rw [calculate_data_by_hour, hft]
    simp
  · rw [group_data_by_terminal, hfh]
    simp [terminalKeys]
  · rw [group_data_by_airline, hfh]
    simp [airlineKeys]

/-- The empty-subset policy instantiated: an hour-7 filter on a dataset
holding only an hour-5 record. -/
theorem empty_filter_aggregates_witness :
    filter_data singleRowData (some 7) none = [] ∧
    (calculate_data_by_hour singleRowData (some 7) none =
        (List.range 60).map (fun m => (m, 0)) ∧
      group_data_by_terminal singleRowData (some 7) = [] ∧
      group_data_by_airline singleRowData (some 7) = []) :=
  ⟨by decide, empty_filter_aggregates singleRowData (some 7) none (by decide) (by decide)⟩

/-! ### Claim theorems: dataset provider -/

/-- Claim C6: when the latest cache file's embedded date equals today, the
dataset is read straight from that file — no API request is issued and no
cache file is written. -/
theorem load_data_fresh_cache_no_api (env : Env) (d : Nat) (tbl : List (List String))
    (hl : latestCache env.files = some (d, tbl)) (hd : d = env.today) :
    load_data env = ⟨Except.ok (readCacheCsv tbl), false, none⟩ := by
  rw [load_data, hl]
  simp [hd]

/-- A run whose cache file is dated today reads it with no API call. -/
theorem load_data_fresh_cache_no_api_witness :
    latestCache freshCacheEnv.files = some (20251012, staleTbl) ∧
    load_data freshCacheEnv = ⟨Except.ok (readCacheCsv staleTbl), false, none⟩ :=
  ⟨rfl, load_data_fresh_cache_no_api freshCacheEnv 20251012 staleTbl rfl rfl⟩

/-- Claim C7: with no cache file at all and an API body whose `response`
is null, `load_data` raises (the `ValueError` of `pd.read_csv(None)`)
rather than returning any dataset — the unrecoverable no-data-source
condition surfaces to the caller. -/
theorem load_data_no_cache_no_data_fatal (env : Env)
    (hl : latestCache env.files = none) (ha : env.api = ApiOutcome.ok none) :
    (load_data env).outcome = Except.error LoadError.readCsvNone := by
  simp [load_data, hl, ha]

/-- The fatal branch instantiated: no cache files, null API response. -/
theorem load_data_no_cache_no_data_fatal_witness :
    latestCache noCacheEnv.files = none ∧
    (load_data noCacheEnv).outcome = Except.error LoadError.readCsvNone :=
  ⟨rfl, load_data_no_cache_no_data_fatal noCacheEnv rfl rfl⟩

/-- Claim C1 (counterexample): on 2025-10-12, with yesterday's cache on
disk, a network error from the API is not caught anywhere in `load_data`:
the `requests` exception propagates to the caller instead of falling back
to `latest_cache`, refuting the claim that such failures never raise. -/
theorem network_error_propagates_despite_cache :
    (latestCache netErrEnv.files).isSome = true ∧
    (load_data netErrEnv).outcome = Except.error LoadError.requestException :=
  ⟨rfl, rfl⟩

/-- Claim C1 (amended): when the latest cache is not today's, only a
well-formed API body with a null/absent `response` value is treated as an
empty response and falls back to reading `latest_cache`; a network error
or a malformed JSON body instead propagates the underlying exception to
the caller. -/
theorem api_failure_behaviour (env : Env) (d : Nat) (tbl : List (List String))
    (hl : latestCache env.files = some (d, tbl)) (hne : d ≠ env.today) :
    (env.api = ApiOutcome.ok none →
      (load_data env).outcome = Except.ok (readCacheCsv tbl)) ∧
    (env.api = ApiOutcome.networkError →
      (load_data env).outcome = Except.error LoadError.requestException) ∧
    (env.api = ApiOutcome.malformedJson →
      (load_data env).outcome = Except.error LoadError.jsonException) := by
  refine ⟨fun ha => ?_, fun ha => ?_, fun ha => ?_⟩ <;> simp [load_data, hl, ha, hne]

/-- The null-response fallback instantiated on a stale cache. -/
theorem api_failure_behaviour_witness :
    latestCache nullRespEnv.files = some (20251011, staleTbl) ∧
    20251011 ≠ nullRespEnv.today ∧
    (load_data nullRespEnv).outcome = Except.ok (readCacheCsv staleTbl) :=
  ⟨rfl, by decide,
    (api_failure_behaviour nullRespEnv 20251011 staleTbl rfl (by decide)).1 rfl⟩

/-- Claim C10: on the empty-response fallback path, the returned dataset's
`timestamp_api_call` values are the fetch cells stored in the stale cache
file parsed back to date-times, and the outcome does not depend on the
current call-issue time of the failed request at all. -/
theorem fallback_fetch_time_from_cache (env : Env) (d : Nat) (tbl : List (List String))
    (hl : latestCache env.files = some (d, tbl)) (hne : d ≠ env.today)
    (ha : env.api = ApiOutcome.ok none) :
    (load_data env).outcome = Except.ok (readCacheCsv tbl) ∧
    (readCacheCsv tbl).map (fun r => r.timestamp_api_call) =
      tbl.map (fun cells => ((csvToRaw cells).2).bind (fun s => parseTs s)) ∧
    (∀ n : Timestamp, (load_data {env with now := n}).outcome = (load_data env).outcome) := by
  refine ⟨by simp [load_data, hl, ha, hne], ?_, ?_⟩
  · simp [readCacheCsv, mkFlightRow]
  · intro n
    have hl' : latestCache ({env with now := n} : Env).files = some (d, tbl) := hl
    simp [load_data, hl, hl', ha, hne]

/-- The fallback fetch-time behaviour instantiated: the stale cache's
stored fetch cell survives, whatever the clock says. -/
theorem fallback_fetch_time_from_cache_witness :
    latestCache nullRespEnv.files = some (20251011, staleTbl) ∧
    20251011 ≠ nullRespEnv.today ∧
    (load_data nullRespEnv).outcome = Except.ok (readCacheCsv staleTbl) ∧
    (readCacheCsv staleTbl).map (fun r => r.timestamp_api_call) =
      staleTbl.map (fun cells => ((csvToRaw cells).2).bind (fun s => parseTs s)) ∧
    (load_data {nullRespEnv with now := tsAt 23 59}).outcome = (load_data nullRespEnv).outcome :=
  ⟨rfl, by decide,
    (fallback_fetch_time_from_cache nullRespEnv 20251011 staleTbl rfl (by decide) rfl).1,
    (fallback_fetch_time_from_cache nullRespEnv 20251011 staleTbl rfl (by decide) rfl).2.1,
    (fallback_fetch_time_from_cache nullRespEnv 20251011 staleTbl rfl (by decide) rfl).2.2
      (tsAt 23 59)⟩

/-! ### Claim theorems: cache round-trip -/

theorem decodeCell_encodeCell (o : Option String) (h : o ≠ some "") :
    decodeCell (encodeCell o) = o := by
  cases o with
  | none => rfl
  | some s =>
    have hs : s ≠ "" := fun hs => h (by rw [hs])
    simp [encodeCell, decodeCell, hs]

theorem formatTs_data_length (t : Timestamp) : (formatTs t).data.length = 19 := by
  simp [formatTs, padDigits_length]

theorem formatTs_ne_empty (t : Timestamp) : formatTs t ≠ "" := by
  intro h
  have h19 := formatTs_data_length t
  rw [h] at h19
  simp at h19

theorem decodeCell_formatTs (t : Timestamp) : decodeCell (formatTs t) = some (formatTs t) := by
  simp [decodeCell, formatTs_ne_empty t]

/-- Claim C9: one write/read cycle through the cache file is lossless:
writing a freshly built dataset (raw flight fields plus the added
`timestamp_api_call` column serialized to its string form) and reading the
file back through `read_csv` + `to_datetime` reproduces the dataset
field-for-field, the timestamps comparing equal after parse.  The
hypotheses are what CSV cells can carry: no field is the empty string
(an empty cell reads back as NaN) and the fetch time's calendar fields fit
their fixed-width digit slots. -/
theorem cache_roundtrip (rows : List RawRow) (now : Timestamp)
    (hrows : ∀ r ∈ rows, r.dep_time ≠ some "" ∧ r.dep_terminal ≠ some "" ∧
      r.airline_iata ≠ some "" ∧ r.flight_iata ≠ some "")
    (hy : now.year < 10000) (hmo : now.month < 100) (hd : now.day < 100) :
    readCacheCsv (freshCsv rows now) = freshRows rows now := by
  unfold readCacheCsv freshCsv freshRows
  rw [List.map_map]
  apply List.map_congr_left
  intro r hr
  obtain ⟨h1, h2, h3, h4⟩ := hrows r hr
  simp only [Function.comp, rowToCsv, csvToRaw]
  rw [decodeCell_encodeCell _ h1, decodeCell_encodeCell _ h2, decodeCell_encodeCell _ h3,
    decodeCell_encodeCell _ h4, decodeCell_formatTs]
  simp [mkFlightRow, parseTs_formatTs now hy hmo hd]

/-- The round-trip instantiated on a one-record dataset with a null
airline cell. -/
theorem cache_roundtrip_witness :
    (∀ r ∈ c9rows, r.dep_time ≠ some "" ∧ r.dep_terminal ≠ some "" ∧
      r.airline_iata ≠ some "" ∧ r.flight_iata ≠ some "") ∧
    readCacheCsv (freshCsv c9rows c9now) = freshRows c9rows c9now :=
  ⟨by decide, cache_roundtrip c9rows c9now (by decide) (by decide) (by decide) (by decide)⟩

/-! ### Null-terminal policy lemmas -/

theorem filter_filter_of_imp {α : Type} (p q : α → Bool) (l : List α)
    (h : ∀ a, p a = true → q a = true) :
    (l.filter q).filter p = l.filter p := by
  induction l with
  | nil => rfl
  | cons a l ih =>
    cases hq : q a
    · have hp : p a = false := by
        cases hp : p a
        · rfl
        · rw [h a hp] at hq; cases hq
      simp [List.filter_cons, hq, hp, ih]
    · by_cases hp : p a <;> simp [List.filter_cons, hq, hp, ih]

theorem filterMap_filter_of_none {α β : Type} (f : α → Option β) (q : α → Bool) (l : List α)
    (h : ∀ a, q a = false → f a = none) :
    (l.filter q).filterMap f = l.filterMap f := by
  induction l with
  | nil => rfl
  | cons a l ih =>
    cases hq : q a
    · simp [List.filter_cons, hq, List.filterMap_cons, h a hq, ih]
    · simp [List.filter_cons, hq, List.filterMap_cons, ih]

theorem length_filter_split {α : Type} (q : α → Bool) (L : List α) :
    L.length = (L.filter q).length + (L.filter (fun a => !q a)).length := by
  induction L with
  | nil => rfl
  | cons a L ih => cases hq : q a <;> simp [List.filter_cons, hq, ih] <;> omega

/-- Pre-restricting the data to any row subset commutes with the hour-only
`filter_data`. -/
theorem filter_data_filter_comm (data : List FlightRow) (departure_hour : Option Nat)
    (q : FlightRow → Bool) :
    filter_data (data.filter q) departure_hour none =
      (filter_data data departure_hour none).filter q := by
  unfold filter_data
  by_cases h : truthyNat departure_hour <;> simp [h, truthyStr, List.filter_filter]
  exact List.filter_congr (fun a _ => by rw [Bool.and_comm])

theorem nuniqueFlights_eq_card (L : List FlightRow) :
    nuniqueFlights L = (L.filterMap (fun r => r.flight_iata)).toFinset.card := by
  rw [nuniqueFlights, List.card_toFinset]

/-- Every distinct flight identifier of `L` is counted by some terminal
group or belongs to a dropped null-terminal row, so the per-terminal
distinct counts plus the number of null-terminal rows bound the distinct
count from above. -/
theorem terminal_counts_sum_le (L : List FlightRow) :
    nuniqueFlights L ≤
      ((terminalKeys L).map
        (fun t => nuniqueFlights (L.filter (fun r => r.dep_terminal == some t)))).sum +
      (L.filter (fun r => !r.dep_terminal.isSome)).length := by
  classical
  have hnodup : (terminalKeys L).Nodup := List.nodup_dedup _
  have hsum : ((terminalKeys L).map
      (fun t => nuniqueFlights (L.filter (fun r => r.dep_terminal == some t)))).sum =
      ∑ t ∈ (terminalKeys L).toFinset,
        ((L.filter (fun r => r.dep_terminal == some t)).filterMap
          (fun r => r.flight_iata)).toFinset.card := by
    rw [← List.sum_toFinset _ hnodup]
    exact Finset.sum_congr rfl (fun t _ => nuniqueFlights_eq_card _)
  rw [hsum, nuniqueFlights_eq_card]
  have hsub : (L.filterMap (fun r => r.flight_iata)).toFinset ⊆
      ((terminalKeys L).toFinset.biUnion (fun t =>
        ((L.filter (fun r => r.dep_terminal == some t)).filterMap
          (fun r => r.flight_iata)).toFinset)) ∪
      ((L.filter (fun r => !r.dep_terminal.isSome)).filterMap
        (fun r => r.flight_iata)).toFinset := by
    intro x hx
    rw [List.mem_toFinset, List.mem_filterMap] at hx
    obtain ⟨r, hr, hfl⟩ := hx
    rw [Finset.mem_union]
    cases hterm : r.dep_terminal with
    | some t =>
      left
      rw [Finset.mem_biUnion]
      refine ⟨t, ?_, ?_⟩
      · rw [List.mem_toFinset]
        unfold terminalKeys
        rw [List.mem_dedup, List.mem_filterMap]
        exact ⟨r, hr, hterm⟩
      · rw [List.mem_toFinset, List.mem_filterMap]
        exact ⟨r, List.mem_filter.mpr ⟨hr, by simp [hterm]⟩, hfl⟩
    | none =>
      right
      rw [List.mem_toFinset, List.mem_filterMap]
      exact ⟨r, List.mem_filter.mpr ⟨hr, by simp [hterm]⟩, hfl⟩
  calc (L.filterMap (fun r => r.flight_iata)).toFinset.card
      ≤ (((terminalKeys L).toFinset.biUnion (fun t =>
            ((L.filter (fun r => r.dep_terminal == some t)).filterMap
              (fun r => r.flight_iata)).toFinset)) ∪
          ((L.filter (fun r => !r.dep_terminal.isSome)).filterMap
            (fun r => r.flight_iata)).toFinset).card := Finset.card_le_card hsub
    _ ≤ ((terminalKeys L).toFinset.biUnion (fun t =>
            ((L.filter (fun r => r.dep_terminal == some t)).filterMap
              (fun r => r.flight_iata)).toFinset)).card +
          ((L.filter (fun r => !r.dep_terminal.isSome)).filterMap
            (fun r => r.flight_iata)).toFinset.card := Finset.card_union_le _ _
    _ ≤ (∑ t ∈ (terminalKeys L).toFinset,
            ((L.filter (fun r => r.dep_terminal == some t)).filterMap
              (fun r => r.flight_iata)).toFinset.card) +
          ((L.filter (fun r => !r.dep_terminal.isSome)).filterMap
            (fun r => r.flight_iata)).toFinset.card :=
        Nat.add_le_add_right Finset.card_biUnion_le _
    _ ≤ (∑ t ∈ (terminalKeys L).toFinset,
            ((L.filter (fun r => r.dep_terminal == some t)).filterMap
              (fun r => r.flight_iata)).toFinset.card) +
          (L.filter (fun r => !r.dep_terminal.isSome)).length :=
        Nat.add_le_add_left (le_trans (List.toFinset_card_le _)
          (List.length_filterMap_le _ _)) _

/-- When no surviving record has a null terminal and no flight identifier
occurs under two different terminals, the per-terminal distinct counts sum
to exactly the number of distinct flight identifiers. -/
theorem terminal_counts_sum_eq (L : List FlightRow)
    (hnn : ∀ r ∈ L, r.dep_terminal.isSome = true)
    (huniq : ∀ r ∈ L, ∀ r' ∈ L, r.flight_iata = r'.flight_iata →
      r.dep_terminal = r'.dep_terminal) :
    ((terminalKeys L).map
      (fun t => nuniqueFlights (L.filter (fun r => r.dep_terminal == some t)))).sum =
      nuniqueFlights L := by
  classical
  have hnodup : (terminalKeys L).Nodup := List.nodup_dedup _
  rw [← List.sum_toFinset _ hnodup, nuniqueFlights_eq_card,
    Finset.sum_congr rfl (fun t _ => nuniqueFlights_eq_card
      (L.filter (fun r => r.dep_terminal == some t)))]
  have hdisj : ∀ t ∈ (terminalKeys L).toFinset, ∀ t' ∈ (terminalKeys L).toFinset, t ≠ t' →
      Disjoint (((L.filter (fun r => r.dep_terminal == some t)).filterMap
          (fun r => r.flight_iata)).toFinset)
        (((L.filter (fun r => r.dep_terminal == some t')).filterMap
          (fun r => r.flight_iata)).toFinset) := by
    intro t ht t' ht' hne
    rw [Finset.disjoint_left]
    intro x hx hx'
    rw [List.mem_toFinset, List.mem_filterMap] at hx hx'
    obtain ⟨r, hrf, hflr⟩ := hx
    obtain ⟨r', hrf', hflr'⟩ := hx'
    rw [List.mem_filter] at hrf hrf'
    have hterm : r.dep_terminal = some t := by
      have h2 := hrf.2
      rwa [beq_iff_eq] at h2
    have hterm' : r'.dep_terminal = some t' := by
      have h2 := hrf'.2
      rwa [beq_iff_eq] at h2
    have heq := huniq r hrf.1 r' hrf'.1 (by rw [hflr, hflr'])
    rw [hterm, hterm'] at heq
    exact hne (Option.some_injective _ heq)
  rw [← Finset.card_biUnion hdisj]
  congr 1
  apply Finset.ext
  intro x
  simp only [Finset.mem_biUnion, List.mem_toFinset, List.mem_filterMap, List.mem_filter,
    terminalKeys, List.mem_dedup]
  constructor
  · rintro ⟨t, ht, r, ⟨hr, hrt⟩, hfl⟩
    exact ⟨r, hr, hfl⟩
  · rintro ⟨r, hr, hfl⟩
    have hs := hnn r hr
    cases hterm : r.dep_terminal with
    | none => rw [hterm] at hs; cases hs
    | some t =>
      exact ⟨t, ⟨r, hr, hterm⟩, r, ⟨hr, by simp [hterm]⟩, hfl⟩

/-- Claim C8 (counterexample): with flight identifier "AA1" departing from
both terminal "A" and terminal "B" and no null fields anywhere, the
per-terminal distinct counts sum to 2 while the filtered subset has only 1
distinct flight identifier and 0 dropped null-terminal records, so the
claimed equality-when-no-nulls fails. -/
theorem terminal_counts_equality_fails :
    ((filter_data crossTerminalData none none).filter
      (fun r => !r.dep_terminal.isSome)).length = 0 ∧
    ((group_data_by_terminal crossTerminalData none).map (fun p => p.2)).sum ≠
      nuniqueFlights (filter_data crossTerminalData none none) -
        ((filter_data crossTerminalData none none).filter
          (fun r => !r.dep_terminal.isSome)).length := by
  refine ⟨by decide, by decide⟩

/-- Claim C8 (amended): null-terminal records are excluded from the
terminal and terminal-airline summaries (dropping them from the data
changes neither summary) but are still counted in the histogram buckets
when their timestamp is valid (the bucket total splits into the
valid-timestamp records with a terminal plus those without); the
per-terminal distinct counts sum to at least the number of distinct flight
identifiers minus the dropped null-terminal records, with equality when no
terminal is null and no flight identifier occurs under more than one
terminal. -/
theorem null_terminal_policy (data : List FlightRow) (departure_hour : Option Nat) :
    (group_data_by_terminal (data.filter (fun r => r.dep_terminal.isSome)) departure_hour =
      group_data_by_terminal data departure_hour) ∧
    (group_data_by_airline (data.filter (fun r => r.dep_terminal.isSome)) departure_hour =
      group_data_by_airline data departure_hour) ∧
    (((calculate_data_by_hour data departure_hour none).map (fun p => p.2)).sum =
      (((filter_data data departure_hour none).filter (fun r => r.dep_time.isSome)).filter
        (fun r => r.dep_terminal.isSome)).length +
      (((filter_data data departure_hour none).filter (fun r => r.dep_time.isSome)).filter
        (fun r => !r.dep_terminal.isSome)).length) ∧
    (nuniqueFlights (filter_data data departure_hour none) ≤
      ((group_data_by_terminal data departure_hour).map (fun p => p.2)).sum +
      ((filter_data data departure_hour none).filter
        (fun r => !r.dep_terminal.isSome)).length) ∧
    ((∀ r ∈ filter_data data departure_hour none, r.dep_terminal.isSome = true) →
      (∀ r ∈ filter_data data departure_hour none,
        ∀ r' ∈ filter_data data departure_hour none,
          r.flight_iata = r'.flight_iata → r.dep_terminal = r'.dep_terminal) →
      ((group_data_by_terminal data departure_hour).map (fun p => p.2)).sum =
        nuniqueFlights (filter_data data departure_hour none)) := by
  refine ⟨?_, ?_, ?_, ?_, ?_⟩
  · simp only [group_data_by_terminal]
    rw [filter_data_filter_comm]
    have hc1 : ∀ a : FlightRow, a.dep_terminal.isSome = false → a.dep_terminal = none := by
      intro a ha
      cases h : a.dep_terminal with
      | none => rfl
      | some t => rw [h] at ha; cases ha
    have hkeys : terminalKeys ((filter_data data departure_hour none).filter
        (fun r => r.dep_terminal.isSome)) =
        terminalKeys (filter_data data departure_hour none) := by
      unfold terminalKeys
      rw [filterMap_filter_of_none _ _ _ hc1]
    rw [hkeys]
    apply List.map_congr_left
    intro t ht
    have hc2 : ∀ a : FlightRow, (a.dep_terminal == some t) = true →
        a.dep_terminal.isSome = true := by
      intro a ha
      cases h : a.dep_terminal with
      | none => rw [h] at ha; cases ha
      | some s => rfl
    rw [filter_filter_of_imp _ _ _ hc2]
  · simp only [group_data_by_airline]
    rw [filter_data_filter_comm]
    have hc1 : ∀ a : FlightRow, a.dep_terminal.isSome = false →
        (match a.dep_terminal, a.airline_iata with
          | some t, some al => some (t, al)
          | _, _ => (none : Option (String × String))) = none := by
      intro a ha
      cases h : a.dep_terminal with
      | some t => rw [h] at ha; cases ha
      | none => cases h2 : a.airline_iata <;> rfl
    have hkeys : airlineKeys ((filter_data data departure_hour none).filter
        (fun r => r.dep_terminal.isSome)) =
        airlineKeys (filter_data data departure_hour none) := by
      unfold airlineKeys
      rw [filterMap_filter_of_none _ _ _ hc1]
    rw [hkeys]
    apply List.map_congr_left
    intro k hk
    have hc2 : ∀ a : FlightRow,
        (a.dep_terminal == some k.1 && a.airline_iata == some k.2) = true →
        a.dep_terminal.isSome = true := by
      intro a ha
      rw [Bool.and_eq_true] at ha
      cases h : a.dep_terminal with
      | none => rw [h] at ha; cases ha.1
      | some s => rfl
    rw [filter_filter_of_imp _ _ _ hc2]
  · simp only [calculate_data_by_hour, List.map_map, Function.comp_def]
    rw [minute_bucket_sum]
    exact length_filter_split _ _
  · have h := terminal_counts_sum_le (filter_data data departure_hour none)
    simp only [group_data_by_terminal, List.map_map, Function.comp_def]
    exact h
  · intro hnn huniq
    have h := terminal_counts_sum_eq (filter_data data departure_hour none) hnn huniq
    simp only [group_data_by_terminal, List.map_map, Function.comp_def]
    exact h

/-- The amended equality instantiated on Scenario A, whose records all
carry a terminal and whose flight identifiers stay within one terminal. -/
theorem null_terminal_policy_witness :
    (∀ r ∈ filter_data scenarioA none none, r.dep_terminal.isSome = true) ∧
    ((group_data_by_terminal scenarioA none).map (fun p => p.2)).sum =
      nuniqueFlights (filter_data scenarioA none none) :=
  ⟨by decide, (null_terminal_policy scenarioA none).2.2.2.2 (by decide) (by decide)⟩
